import Mathlib

/-!
Verification of the SSO authentication gateway of this repository
(`innogeotech/sso/utils.py`, `innogeotech/sso/avanpost.py`, `igt/sso/views.py`,
`igt/sso/middleware.py`) against its natural-language specification.

The Redis-like cache is modelled as an association list of entries; the
upstream issuer, the JWT decoder and the SHA-256 hash are modelled as
explicit parameters, since they are external collaborators of the code
under verification.  All functions keep the names used in the Python
source.
-/

namespace Sso

/-- Cache entry: a string value together with an optional expiry (a TTL in
seconds); `none` means the entry never expires. -/
structure Entry where
  value : String
  expiry : Option Nat
deriving DecidableEq

/-- The Redis-like key-value cache, newest binding first. -/
abbrev Cache := List (String × Entry)

/-- Model of `redis.set(key, value, expire)`.  Following aioredis, an
`expire` of `0` (the default) means the entry does not expire. -/
def cacheSet (c : Cache) (key value : String) (expire : Nat) : Cache :=
  (key, ⟨value, if expire = 0 then none else some expire⟩)
    :: c.filter (fun e => e.1 != key)

/-- Model of `redis.get(key)`. -/
def cacheGet (c : Cache) (key : String) : Option String :=
  (c.find? (fun e => e.1 == key)).map (fun e => e.2.value)

/-- Model of `redis.exists(key)`. -/
def cacheExists (c : Cache) (key : String) : Bool :=
  (c.find? (fun e => e.1 == key)).isSome

/-- Model of `redis.delete(key)`. -/
def cacheDelete (c : Cache) (key : String) : Cache :=
  c.filter (fun e => e.1 != key)

/-- Model of `redis.ttl(key)`: `-2` when the key is absent, `-1` when the
key exists but has no expiry, otherwise the remaining TTL. -/
def cacheTtl (c : Cache) (key : String) : Int :=
  match c.find? (fun e => e.1 == key) with
  | none => -2
  | some e =>
    match e.2.expiry with
    | none => -1
    | some n => (n : Int)

/-- Translation of `avanpost.CODE_VERIFIER_REDIS_KEY.format(state=state)`,
where `CODE_VERIFIER_REDIS_KEY = "forest:sso:avanpost:code_verifier:{state}"`. -/
def CODE_VERIFIER_REDIS_KEY (state : String) : String :=
  "forest:sso:avanpost:code_verifier:" ++ state

/-- Translation of `avanpost.TOKEN_REDIS_KEY`: the literal constant string
`'forest:sso:token:{access_token}'` (a format template; the placeholder is
substituted only where the Python source calls `.format`). -/
def TOKEN_REDIS_KEY : String := "forest:sso:token:{access_token}"

/-- Translation of `utils.set_code_verifier`: stores the code verifier
under the state's key.  The source calls `redis_conn.set(key=..., value=...)`
without any `expire` argument, so the entry carries no TTL. -/
def set_code_verifier (c : Cache) (code_verifier state : String) : Cache :=
  cacheSet c (CODE_VERIFIER_REDIS_KEY state) code_verifier 0

/-- Translation of `utils.revoke_code_verifier`. -/
def revoke_code_verifier (c : Cache) (state : String) : Cache :=
  cacheDelete c (CODE_VERIFIER_REDIS_KEY state)

/-- Translation of `utils.set_access_token`: the source passes
`key=avanpost.TOKEN_REDIS_KEY` itself — the raw template string, never
formatted with the access token — and stores the access token as the value
with `expire=expires_in`. -/
def set_access_token (c : Cache) (access_token : String) (expires_in : Nat) : Cache :=
  cacheSet c TOKEN_REDIS_KEY access_token expires_in

/-- Translation of `utils.set_refresh_token`: the key is the f-string
`f"{avanpost.TOKEN_REDIS_KEY}:{access_token}"`, i.e. the raw template with
`":" + access_token` appended; the refresh token is stored without TTL. -/
def set_refresh_token (c : Cache) (access_token refresh_token : String) : Cache :=
  cacheSet c (TOKEN_REDIS_KEY ++ ":" ++ access_token) refresh_token 0

/-- Truthiness of an optional boolean, as Python evaluates the result of an
awaited predicate in an `if`: `None` is falsy. -/
def optionTruthy : Option Bool → Bool
  | none => false
  | some b => b

/-- Translation of `utils.is_revoked`: the body evaluates
`await redis_conn.exists(f"{avanpost.TOKEN_REDIS_KEY}:{token}")` and has no
`return` statement, so the function returns Python `None` on every input. -/
def is_revoked (c : Cache) (token : String) : Option Bool :=
  let _ := cacheExists c (TOKEN_REDIS_KEY ++ ":" ++ token)
  none

/-- Branching of `utils.has_token_expired` on the TTL reported by the
cache: `-2` (key absent) raises `KeyError`, `-1` (no expiry) yields
`False`, any other TTL yields `ttl <= 0`. -/
def has_token_expired_core (access_token_key : String) (ttl : Int) : Except String Bool :=
  if ttl = -2 then Except.error ("Key " ++ access_token_key ++ " does not exist")
  else if ttl = -1 then Except.ok false
  else Except.ok (decide (ttl ≤ 0))

/-- Translation of `utils.has_token_expired`: queries the cache TTL and
branches on it. -/
def has_token_expired (c : Cache) (access_token_key : String) : Except String Bool :=
  has_token_expired_core access_token_key (cacheTtl c access_token_key)

/-- Python-level errors that the gateway code can raise without catching
them. -/
inductive PyError
  | typeError
  | keyError
deriving DecidableEq

/-- Theorem for claim C5: `has_token_expired` raises `KeyError` exactly
when the cache reports TTL `-2` (key absent), returns `false` for TTL `-1`
(key never expires), and otherwise returns `true` iff the TTL is `≤ 0`;
the `-2` and `-1` sentinels lead to distinct results. -/
theorem has_token_expired_spec (key : String) (ttl : Int) :
    (ttl = -2 → has_token_expired_core key ttl
      = Except.error ("Key " ++ key ++ " does not exist"))
    ∧ (ttl = -1 → has_token_expired_core key ttl = Except.ok false)
    ∧ (ttl ≠ -2 → ttl ≠ -1 →
        (has_token_expired_core key ttl = Except.ok true ↔ ttl ≤ 0))
    ∧ has_token_expired_core key (-2) ≠ has_token_expired_core key (-1) := by
  refine ⟨?_, ?_, ?_, ?_⟩
  · intro h; simp [has_token_expired_core, h]
  · intro h; simp [has_token_expired_core, h]
  · intro h2 h1
    simp [has_token_expired_core, h2, h1]
  · simp [has_token_expired_core]

/-- Witness for C5 at concrete TTL values `-2`, `-1`, `0`. -/
theorem has_token_expired_spec_witness :
    has_token_expired_core "k" (-2)
      = Except.error ("Key " ++ "k" ++ " does not exist")
    ∧ has_token_expired_core "k" (-1) = Except.ok false
    ∧ (has_token_expired_core "k" 0 = Except.ok true ↔ (0 : Int) ≤ 0)
    ∧ has_token_expired_core "k" (-2) ≠ has_token_expired_core "k" (-1) :=
  ⟨(has_token_expired_spec "k" (-2)).1 rfl,
   (has_token_expired_spec "k" (-1)).2.1 rfl,
   (has_token_expired_spec "k" 0).2.2.1 (by decide) (by decide),
   (has_token_expired_spec "k" 0).2.2.2⟩

/-- Counterexample for claim C4: `set_code_verifier` writes the
state → codeVerifier entry with no TTL at all — the cache reports `-1`
(never expires) for it, not a bounded positive TTL. -/
theorem set_code_verifier_no_ttl_counterexample :
    cacheTtl (set_code_verifier [] "CV1" "S1") (CODE_VERIFIER_REDIS_KEY "S1") = -1
    ∧ ¬ (0 < cacheTtl (set_code_verifier [] "CV1" "S1") (CODE_VERIFIER_REDIS_KEY "S1")) := by
  decide

/-- Theorem for claim C4 as amended: every `set_code_verifier` call stores
the verifier under the state's key with no expiry (cache TTL `-1`), so an
abandoned login attempt's entry never expires of its own accord. -/
theorem set_code_verifier_no_ttl (c : Cache) (cv st : String) :
    cacheGet (set_code_verifier c cv st) (CODE_VERIFIER_REDIS_KEY st) = some cv
    ∧ cacheTtl (set_code_verifier c cv st) (CODE_VERIFIER_REDIS_KEY st) = -1 := by
  unfold set_code_verifier cacheSet cacheGet cacheTtl
  simp [List.find?]

/-- Theorem for claim C2: `is_revoked` never returns a boolean — its body
lacks a `return` statement, so it evaluates to `None` (falsy) for every
cache state and every token, including a token whose cache entry is absent
(revoked). -/
theorem is_revoked_always_none (c : Cache) (t : String) :
    is_revoked c t = none ∧ optionTruthy (is_revoked c t) = false :=
  ⟨rfl, rfl⟩

/-- External calls made to the issuer during a flow; used to record which
issuer endpoints a handler actually contacts. -/
inductive Event
  | issuerExchange
  | revocationCall
deriving DecidableEq

/-- Outcome of the issuer's token-exchange endpoint, as filtered by
`utils.json_or_raise_for_status`: either a response carrying an
`access_token` (with refresh token and `expires_in`), or a failure
(error payload / non-2xx status, surfaced as HTTP 400 upstream). -/
inductive ExchangeResult
  | success (access_token refresh_token : String) (expires_in : Nat)
  | failure
deriving DecidableEq

/-- Outcome of `views.sso_callback`. -/
inductive CallbackOutcome
  | badRequestMissingCode
  | exchangeFailed
  | redirect (access_token refresh_token : String)
deriving DecidableEq

/-- Translation of `views.sso_callback`: reads the code verifier for the
state (possibly `None`), rejects with 400 only when `code` is falsy, then
always calls the issuer exchange with `(code, code_verifier)`; only on a
successful exchange does it revoke the verifier and store the access and
refresh tokens.  The `exchange` parameter models the issuer's
token-exchange endpoint. -/
def sso_callback (c : Cache) (code : Option String) (state : String)
    (exchange : String → Option String → ExchangeResult) :
    CallbackOutcome × Cache × List Event :=
  let code_verifier := cacheGet c (CODE_VERIFIER_REDIS_KEY state)
  match code with
  | none => (CallbackOutcome.badRequestMissingCode, c, [])
  | some cd =>
    if cd == "" then (CallbackOutcome.badRequestMissingCode, c, [])
    else
      match exchange cd code_verifier with
      | ExchangeResult.failure => (CallbackOutcome.exchangeFailed, c, [Event.issuerExchange])
      | ExchangeResult.success accessToken refreshToken expiresIn =>
        let c1 := revoke_code_verifier c state
        let c2 := set_access_token c1 accessToken expiresIn
        let c3 := set_refresh_token c2 accessToken refreshToken
        (CallbackOutcome.redirect accessToken refreshToken, c3, [Event.issuerExchange])

/-- One successful redeem run for claim C1: verifier `CV1` stored for state
`S1`, callback called with code `abc123`, issuer returning
`{access_token: AT1, refresh_token: RT1, expires_in: 3600}`. -/
def c1_result : CallbackOutcome × Cache × List Event :=
  sso_callback (set_code_verifier [] "CV1" "S1") (some "abc123") "S1"
    (fun _ _ => ExchangeResult.success "AT1" "RT1" 3600)

/-- Theorem for claim C1, evaluating the code at the failing input: after a
successful exchange returning `AT1`/`RT1`/`3600`, there is no cache entry
keyed by the access token in any `sso:token:<access_token>` shape and no
`:refresh`-suffixed entry; instead the access token is stored as the value
under the constant literal key `forest:sso:token:{access_token}` (the
placeholder is never formatted) with TTL 3600, and the refresh token under
`forest:sso:token:{access_token}:AT1`.  Only the verifier-deletion part of
the claim holds. -/
theorem redeem_cache_keys_eval :
    c1_result.1 = CallbackOutcome.redirect "AT1" "RT1"
    ∧ cacheGet c1_result.2.1 "sso:token:AT1" = none
    ∧ cacheGet c1_result.2.1 "forest:sso:token:AT1" = none
    ∧ cacheGet c1_result.2.1 "sso:token:AT1:refresh" = none
    ∧ cacheGet c1_result.2.1 "forest:sso:token:AT1:refresh" = none
    ∧ cacheGet c1_result.2.1 "forest:sso:token:{access_token}" = some "AT1"
    ∧ cacheTtl c1_result.2.1 "forest:sso:token:{access_token}" = 3600
    ∧ cacheGet c1_result.2.1 "forest:sso:token:{access_token}:AT1" = some "RT1"
    ∧ cacheExists c1_result.2.1 (CODE_VERIFIER_REDIS_KEY "S1") = false := by
  decide

/-- Counterexample for claim C3: with no stored verifier for state `S1`,
the callback does not fail before the exchange — the issuer exchange is
attempted; and when the exchange fails, the state entry is not deleted,
refuting the unconditional-deletion part as well. -/
theorem callback_unknown_state_counterexample :
    cacheGet ([] : Cache) (CODE_VERIFIER_REDIS_KEY "S1") = none
    ∧ (sso_callback [] (some "abc123") "S1" (fun _ _ => ExchangeResult.failure)).2.2
        = [Event.issuerExchange]
    ∧ (sso_callback (set_code_verifier [] "CV1" "S1") (some "abc123") "S1"
        (fun _ _ => ExchangeResult.failure)).2.1
        = set_code_verifier [] "CV1" "S1" := by
  decide

/-- Theorem for claim C3 as amended: when the state has no stored code
verifier, the callback (given a non-empty code) still attempts the issuer
exchange, passing the missing verifier, and surfaces the issuer's
rejection; it never fails with an UnknownState error of its own, so a
second redeem with the same state again reaches the issuer. -/
theorem callback_unknown_state_attempts_exchange (c : Cache) (st cd : String)
    (exchange : String → Option String → ExchangeResult)
    (hv : cacheGet c (CODE_VERIFIER_REDIS_KEY st) = none)
    (hcd : (cd == "") = false) :
    (sso_callback c (some cd) st exchange).2.2 = [Event.issuerExchange]
    ∧ (exchange cd none = ExchangeResult.failure →
        sso_callback c (some cd) st exchange
          = (CallbackOutcome.exchangeFailed, c, [Event.issuerExchange])) := by
  simp only [sso_callback, hv, hcd]
  cases hex : exchange cd none with
  | failure => simp
  | success a r e => simp

/-- Witness for C3's amended theorem on a concrete empty cache and a
rejecting issuer stub. -/
theorem callback_unknown_state_attempts_exchange_witness :
    (sso_callback [] (some "c0") "S9" (fun _ _ => ExchangeResult.failure)).2.2
      = [Event.issuerExchange]
    ∧ sso_callback [] (some "c0") "S9" (fun _ _ => ExchangeResult.failure)
      = (CallbackOutcome.exchangeFailed, [], [Event.issuerExchange]) :=
  ⟨(callback_unknown_state_attempts_exchange [] "S9" "c0"
      (fun _ _ => ExchangeResult.failure) rfl (by decide)).1,
   (callback_unknown_state_attempts_exchange [] "S9" "c0"
      (fun _ _ => ExchangeResult.failure) rfl (by decide)).2 rfl⟩

/-- Outcome of `views.logout`: the distinct `TokenAlreadyRevoked`
exception, a `ValueError` when the issuer's revocation endpoint answers
with a non-200 status, or HTTP 204 on success. -/
inductive LogoutOutcome
  | alreadyRevoked
  | issuerError
  | noContent
deriving DecidableEq

/-- Translation of `views.logout`: reads the cache entry under
`f"{avanpost.TOKEN_REDIS_KEY}:{sso_token}"`; raises `TokenAlreadyRevoked`
when it is absent, before any issuer call; otherwise posts to the issuer's
revocation endpoint (modelled by its status code) and, on status 200,
deletes the entry. -/
def logout (c : Cache) (sso_token : String) (issuerStatus : Nat) :
    LogoutOutcome × Cache × List Event :=
  let token_key := TOKEN_REDIS_KEY ++ ":" ++ sso_token
  match cacheGet c token_key with
  | none => (LogoutOutcome.alreadyRevoked, c, [])
  | some _tok =>
    if issuerStatus != 200 then (LogoutOutcome.issuerError, c, [Event.revocationCall])
    else (LogoutOutcome.noContent, cacheDelete c token_key, [Event.revocationCall])

/-- Deleting a key removes it: a lookup of the same key afterwards fails. -/
theorem cacheGet_cacheDelete (c : Cache) (k : String) :
    cacheGet (cacheDelete c k) k = none := by
  unfold cacheGet cacheDelete
  rw [Option.map_eq_none', List.find?_eq_none]
  intro x hx hp
  rw [List.mem_filter] at hx
  have hb := hx.2
  rw [bne_iff_ne] at hb
  exact hb (eq_of_beq hp)

/-- Theorem for claim C6: a logout on a token whose cache entry is absent
fails with `TokenAlreadyRevoked` and performs no issuer revocation call; a
second logout after a successful one likewise fails with
`TokenAlreadyRevoked` without crashing; and `TokenAlreadyRevoked` is a
distinct outcome from transport/issuer errors. -/
theorem logout_already_revoked_spec (c : Cache) (t : String) (st : Nat) :
    (cacheGet c (TOKEN_REDIS_KEY ++ ":" ++ t) = none →
      logout c t st = (LogoutOutcome.alreadyRevoked, c, []))
    ∧ (∀ c2 st2, logout c t st = (LogoutOutcome.noContent, c2, [Event.revocationCall]) →
        logout c2 t st2 = (LogoutOutcome.alreadyRevoked, c2, []))
    ∧ LogoutOutcome.alreadyRevoked ≠ LogoutOutcome.issuerError := by
  refine ⟨?_, ?_, by simp⟩
  · intro h
    simp [logout, h]
  · intro c2 st2 h
    cases hget : cacheGet c (TOKEN_REDIS_KEY ++ ":" ++ t) with
    | none => simp [logout, hget] at h
    | some tok =>
      simp only [logout, hget] at h
      by_cases hst : (st != 200) = true
      · rw [if_pos hst] at h
        simp at h
      · rw [if_neg hst] at h
        injection h with h1 h2
        injection h2 with h2a h2b
        subst h2a
        simp [logout, cacheGet_cacheDelete]

/-- Witness for C6: a logout on the empty cache fails with
`TokenAlreadyRevoked`, and after a successful logout of `AT1` a second
logout of `AT1` fails with `TokenAlreadyRevoked`. -/
theorem logout_already_revoked_spec_witness :
    logout [] "AT1" 200 = (LogoutOutcome.alreadyRevoked, [], [])
    ∧ logout (logout (set_refresh_token [] "AT1" "RT1") "AT1" 200).2.1 "AT1" 200
        = (LogoutOutcome.alreadyRevoked,
           (logout (set_refresh_token [] "AT1" "RT1") "AT1" 200).2.1, [])
    ∧ LogoutOutcome.alreadyRevoked ≠ LogoutOutcome.issuerError :=
  ⟨(logout_already_revoked_spec [] "AT1" 200).1 rfl,
   (logout_already_revoked_spec (set_refresh_token [] "AT1" "RT1") "AT1" 200).2.1
     _ 200 (by decide),
   (logout_already_revoked_spec [] "AT1" 200).2.2⟩

/-- One group of the decoded JWT payload; `group.get('name')` yields
`None` when the `name` key is missing. -/
structure Group where
  name : Option String
deriving DecidableEq

/-- Decoded JWT claims as consumed by the permission check:
`token.get('groups')` yields `None` when the payload has no `groups`
key. -/
structure Decoded where
  groups : Option (List Group)
deriving DecidableEq

/-- Translation of `utils.has_permissions`: iterates over
`token.get('groups')` comparing each group's name to the configured group.
Iterating over Python `None` raises `TypeError`, which the caller does not
catch. -/
def has_permissions (parma_group : String) (token : Decoded) : Except PyError Bool :=
  match token.groups with
  | none => Except.error PyError.typeError
  | some gs => Except.ok (gs.any (fun g => g.name == some parma_group))

/-- Result of `decode_avanpost_jwt` as observed by the middleware: either
decoded claims, or a `jwt.InvalidTokenError` (signature mismatch, expired
`exp`, issuer or audience mismatch) with its message. -/
inductive DecodeResult
  | ok (payload : Decoded)
  | invalidToken (msg : String)
deriving DecidableEq

/-- An inbound HTTP request, reduced to what the middleware inspects
directly. -/
structure Request where
  method : String
deriving DecidableEq

/-- Construction-time configuration of `AvanpostJWTMiddleware`:
the whitelist check (`check_request(request, whitelist)`), the token
extractor, the optional revocation predicate, the JWT decoder and the
required group name. -/
structure MwConfig where
  whitelistedCheck : Request → Bool
  token_getter : Request → Option String
  isRevokedCfg : Option (Cache → String → Option Bool)
  decode : String → DecodeResult
  parma_group : String
  store_token : Bool

/-- Pipeline states of the middleware, in the spec's vocabulary. -/
inductive MwEvent
  | start
  | whitelistCheck
  | tokenExtract
  | tokenVerify
  | revocationCheck
  | contextAttach
  | permissionCheck
  | delegate
deriving DecidableEq

/-- Outcome of one middleware run. -/
inductive MwOutcome
  | handled
  | unauthorized (reason : String)
  | forbidden (reason : String)
  | crashed (e : PyError)
deriving DecidableEq

/-- Evaluation of the revocation predicate exactly as the middleware does:
`callable(is_revoked) and await invoke(partial(is_revoked, request, token))`
— no predicate configured means not revoked, and a configured predicate's
result is taken by Python truthiness. -/
def revokedEval (cfg : MwConfig) (c : Cache) (tok : String) : Bool :=
  match cfg.isRevokedCfg with
  | none => false
  | some f => optionTruthy (f c tok)

/-- Translation of `middleware.jwt_middleware`, recording the pipeline
states traversed: OPTIONS requests and whitelisted requests delegate
straight away; a missing/empty token rejects with 401; a decode failure
caught as `InvalidTokenError` rejects with 401; a truthy revocation
predicate rejects with 403; then the decoded claims are attached to the
request context (`request[request_property] = decoded`) *before* the
permission check runs; a failed permission check rejects with 403, a
`TypeError` inside it propagates uncaught, and otherwise the downstream
handler is invoked. -/
def jwt_middleware (cfg : MwConfig) (c : Cache) (req : Request) :
    MwOutcome × List MwEvent :=
  if req.method == "OPTIONS" then
    (MwOutcome.handled, [MwEvent.start, MwEvent.whitelistCheck, MwEvent.delegate])
  else if cfg.whitelistedCheck req then
    (MwOutcome.handled, [MwEvent.start, MwEvent.whitelistCheck, MwEvent.delegate])
  else
    match cfg.token_getter req with
    | none =>
      (MwOutcome.unauthorized "Missing authorization token",
       [MwEvent.start, MwEvent.whitelistCheck, MwEvent.tokenExtract])
    | some tok =>
      if tok == "" then
        (MwOutcome.unauthorized "Missing authorization token",
         [MwEvent.start, MwEvent.whitelistCheck, MwEvent.tokenExtract])
      else
        match cfg.decode tok with
        | DecodeResult.invalidToken msg =>
          (MwOutcome.unauthorized ("Invalid authorization token, " ++ msg),
           [MwEvent.start, MwEvent.whitelistCheck, MwEvent.tokenExtract,
            MwEvent.tokenVerify])
        | DecodeResult.ok decoded =>
          if revokedEval cfg c tok then
            (MwOutcome.forbidden "Token is revoked",
             [MwEvent.start, MwEvent.whitelistCheck, MwEvent.tokenExtract,
              MwEvent.tokenVerify, MwEvent.revocationCheck])
          else
            match has_permissions cfg.parma_group decoded with
            | Except.error e =>
              (MwOutcome.crashed e,
               [MwEvent.start, MwEvent.whitelistCheck, MwEvent.tokenExtract,
                MwEvent.tokenVerify, MwEvent.revocationCheck,
                MwEvent.contextAttach, MwEvent.permissionCheck])
            | Except.ok false =>
              (MwOutcome.forbidden "You have no rights to access the page.",
               [MwEvent.start, MwEvent.whitelistCheck, MwEvent.tokenExtract,
                MwEvent.tokenVerify, MwEvent.revocationCheck,
                MwEvent.contextAttach, MwEvent.permissionCheck])
            | Except.ok true =>
              (MwOutcome.handled,
               [MwEvent.start, MwEvent.whitelistCheck, MwEvent.tokenExtract,
                MwEvent.tokenVerify, MwEvent.revocationCheck,
                MwEvent.contextAttach, MwEvent.permissionCheck, MwEvent.delegate])

/-- Subsequence test on pipeline traces: `isSubseq t order = true` iff the
states of `t` occur in `order`'s relative order. -/
def isSubseq : List MwEvent → List MwEvent → Bool
  | [], _ => true
  | _ :: _, [] => false
  | a :: l, b :: m => if a == b then isSubseq l m else isSubseq (a :: l) m

/-- State order claimed by the spec (section 4.4). -/
def specStateOrder : List MwEvent :=
  [MwEvent.start, MwEvent.whitelistCheck, MwEvent.tokenExtract,
   MwEvent.tokenVerify, MwEvent.revocationCheck, MwEvent.permissionCheck,
   MwEvent.contextAttach, MwEvent.delegate]

/-- State order the code actually follows: context attach happens before
the permission check. -/
def codeStateOrder : List MwEvent :=
  [MwEvent.start, MwEvent.whitelistCheck, MwEvent.tokenExtract,
   MwEvent.tokenVerify, MwEvent.revocationCheck, MwEvent.contextAttach,
   MwEvent.permissionCheck, MwEvent.delegate]

/-- A concrete middleware configuration whose decoder accepts the token
with a payload carrying the required group. -/
def mw_demo_cfg : MwConfig where
  whitelistedCheck := fun _ => false
  token_getter := fun _ => some "tok1"
  isRevokedCfg := some is_revoked
  decode := fun _ => DecodeResult.ok ⟨some [⟨some "parma-ml"⟩]⟩
  parma_group := "parma-ml"
  store_token := false

/-- Counterexample for claim C7: on a plain GET request with a valid,
authorized token, the middleware's trace attaches the decoded claims to
the request context *before* the permission check, so the trace is not a
run of the spec's claimed state order. -/
theorem middleware_order_counterexample :
    (jwt_middleware mw_demo_cfg [] ⟨"GET"⟩).2 = codeStateOrder
    ∧ isSubseq (jwt_middleware mw_demo_cfg [] ⟨"GET"⟩).2 specStateOrder = false := by
  decide

/-- Theorem for claim C7 as amended: every middleware run traverses its
states in the order START → WHITELIST_CHECK → TOKEN_EXTRACT →
TOKEN_VERIFY → REVOCATION_CHECK → CONTEXT_ATTACH → PERMISSION_CHECK →
DELEGATE (context attach before the permission check), and a request whose
token decodes to an `InvalidTokenError` (e.g. an expired JWT) is rejected
with 401 at TOKEN_VERIFY and never reaches PERMISSION_CHECK. -/
theorem middleware_order_spec (cfg : MwConfig) (c : Cache) (req : Request) :
    isSubseq (jwt_middleware cfg c req).2 codeStateOrder = true
    ∧ (∀ tok msg,
        (req.method == "OPTIONS") = false →
        cfg.whitelistedCheck req = false →
        cfg.token_getter req = some tok →
        (tok == "") = false →
        cfg.decode tok = DecodeResult.invalidToken msg →
        (jwt_middleware cfg c req).1
            = MwOutcome.unauthorized ("Invalid authorization token, " ++ msg)
          ∧ ((jwt_middleware cfg c req).2.contains MwEvent.permissionCheck) = false) := by
  constructor
  · unfold jwt_middleware
    repeat' split
    all_goals rfl
  · intro tok msg h1 h2 h3 h4 h5
    simp [jwt_middleware, h1, h2, h3, h4, h5]

/-- Witness for C7's amended theorem: a request carrying a syntactically
valid but expired JWT is rejected with 401 and its trace never contains
the permission check. -/
def mw_expired_cfg : MwConfig where
  whitelistedCheck := fun _ => false
  token_getter := fun _ => some "tok2"
  isRevokedCfg := some is_revoked
  decode := fun _ => DecodeResult.invalidToken "Signature has expired"
  parma_group := "parma-ml"
  store_token := false

/-- Witness for C7: concrete expired-token run. -/
theorem middleware_order_spec_witness :
    isSubseq (jwt_middleware mw_expired_cfg [] ⟨"GET"⟩).2 codeStateOrder = true
    ∧ (jwt_middleware mw_expired_cfg [] ⟨"GET"⟩).1
        = MwOutcome.unauthorized ("Invalid authorization token, " ++ "Signature has expired")
    ∧ ((jwt_middleware mw_expired_cfg [] ⟨"GET"⟩).2.contains MwEvent.permissionCheck) = false :=
  ⟨(middleware_order_spec mw_expired_cfg [] ⟨"GET"⟩).1,
   ((middleware_order_spec mw_expired_cfg [] ⟨"GET"⟩).2 "tok2" "Signature has expired"
      rfl rfl rfl rfl rfl).1,
   ((middleware_order_spec mw_expired_cfg [] ⟨"GET"⟩).2 "tok2" "Signature has expired"
      rfl rfl rfl rfl rfl).2⟩

/-- Theorem for claim C10: when the bearer token verifies but the decoded
payload has no `groups` key, `has_permissions` raises `TypeError` and the
middleware run terminates with that uncaught error rather than a 403; and
the permission check is total (returns a boolean) exactly on payloads
whose `groups` value is a list of group dicts. -/
theorem permissions_missing_groups_crash :
    (∀ (cfg : MwConfig) (c : Cache) (req : Request) (tok : String) (payload : Decoded),
      (req.method == "OPTIONS") = false →
      cfg.whitelistedCheck req = false →
      cfg.token_getter req = some tok →
      (tok == "") = false →
      cfg.decode tok = DecodeResult.ok payload →
      revokedEval cfg c tok = false →
      payload.groups = none →
      jwt_middleware cfg c req
          = (MwOutcome.crashed PyError.typeError,
             [MwEvent.start, MwEvent.whitelistCheck, MwEvent.tokenExtract,
              MwEvent.tokenVerify, MwEvent.revocationCheck,
              MwEvent.contextAttach, MwEvent.permissionCheck])
        ∧ has_permissions cfg.parma_group payload = Except.error PyError.typeError
        ∧ ∀ r, MwOutcome.crashed PyError.typeError ≠ MwOutcome.forbidden r)
    ∧ (∀ (parma : String) (p : Decoded) (gs : List Group), p.groups = some gs →
        has_permissions parma p = Except.ok (gs.any (fun g => g.name == some parma))) := by
  constructor
  · intro cfg c req tok payload h1 h2 h3 h4 h5 h6 h7
    have hp : has_permissions cfg.parma_group payload = Except.error PyError.typeError := by
      simp [has_permissions, h7]
    refine ⟨?_, hp, by intro r h; cases h⟩
    simp only [jwt_middleware, h1, h2, h3, h4, h5, h6, hp]
    simp
  · intro parma p gs hgs
    simp [has_permissions, hgs]

/-- Configuration used to witness C10: the decoder accepts the token with
a payload that has no `groups` key. -/
def mw_nogroups_cfg : MwConfig where
  whitelistedCheck := fun _ => false
  token_getter := fun _ => some "tok3"
  isRevokedCfg := some is_revoked
  decode := fun _ => DecodeResult.ok ⟨none⟩
  parma_group := "parma-ml"
  store_token := false

/-- Witness for C10: concrete run crashing with `TypeError`, and a totality
instance on a payload with a groups list. -/
theorem permissions_missing_groups_crash_witness :
    jwt_middleware mw_nogroups_cfg [] ⟨"GET"⟩
        = (MwOutcome.crashed PyError.typeError,
           [MwEvent.start, MwEvent.whitelistCheck, MwEvent.tokenExtract,
            MwEvent.tokenVerify, MwEvent.revocationCheck,
            MwEvent.contextAttach, MwEvent.permissionCheck])
    ∧ has_permissions "parma-ml" ⟨some ([] : List Group)⟩
        = Except.ok (List.any ([] : List Group) (fun g => g.name == some "parma-ml")) :=
  ⟨(permissions_missing_groups_crash.1 mw_nogroups_cfg [] ⟨"GET"⟩ "tok3" ⟨none⟩
      rfl rfl rfl rfl rfl rfl rfl).1,
   permissions_missing_groups_crash.2 "parma-ml" ⟨some ([] : List Group)⟩ [] rfl⟩

/-- One JSON Web Key of the issuer's JWKS document: a key id and the key
material. -/
structure Jwk where
  kid : String
  key : String
deriving DecidableEq

/-- Translation of `utils.request_json_web_keys`: one HTTP GET of the JWKS
endpoint; the second component counts the fetches performed (always one). -/
def request_json_web_keys (issuerKeys : List Jwk) : List Jwk × Nat :=
  (issuerKeys, 1)

/-- Translation of `utils.request_public_key`: fetches the JWKS once,
indexes the keys by `kid`, and looks up the token's `kid`; a missing `kid`
raises `KeyError` (`keys[kid]`) with no second fetch. -/
def request_public_key (issuerKeys : List Jwk) (kid : String) :
    Except PyError String × Nat :=
  let fetched := request_json_web_keys issuerKeys
  match fetched.1.find? (fun j => j.kid == kid) with
  | some j => (Except.ok j.key, fetched.2)
  | none => (Except.error PyError.keyError, fetched.2)

/-- Counterexample for claim C9: verification of a token whose `kid` is
absent from the issuer's key set performs exactly one JWKS fetch — not the
claimed two — and fails with `KeyError`. -/
theorem jwks_no_refetch_counterexample :
    (request_public_key [⟨"kid1", "KEY1"⟩] "kid2").1 = Except.error PyError.keyError
    ∧ (request_public_key [⟨"kid1", "KEY1"⟩] "kid2").2 = 1
    ∧ (request_public_key [⟨"kid1", "KEY1"⟩] "kid2").2 ≠ 2 :=
  ⟨rfl, rfl, by decide⟩

/-- Theorem for claim C9 as amended: `request_public_key` performs exactly
one JWKS fetch for every input; an unknown `kid` fails immediately with
`KeyError` (no refetch, no retry), and a known `kid` yields its key. -/
theorem jwks_single_fetch_spec (issuerKeys : List Jwk) (kid : String) :
    (request_public_key issuerKeys kid).2 = 1
    ∧ (issuerKeys.find? (fun j => j.kid == kid) = none →
        (request_public_key issuerKeys kid).1 = Except.error PyError.keyError)
    ∧ (∀ j, issuerKeys.find? (fun j => j.kid == kid) = some j →
        (request_public_key issuerKeys kid).1 = Except.ok j.key) := by
  refine ⟨?_, ?_, ?_⟩
  · unfold request_public_key request_json_web_keys
    cases h : issuerKeys.find? (fun j => j.kid == kid) <;> simp [h]
  · intro h
    simp [request_public_key, request_json_web_keys, h]
  · intro j h
    simp [request_public_key, request_json_web_keys, h]

/-- Witness for C9's amended theorem at a one-key set, exercising both the
unknown-`kid` failure and the known-`kid` success. -/
theorem jwks_single_fetch_spec_witness :
    (request_public_key [⟨"kid1", "KEY1"⟩] "kid9").2 = 1
    ∧ (request_public_key [⟨"kid1", "KEY1"⟩] "kid9").1 = Except.error PyError.keyError
    ∧ (request_public_key [⟨"kid1", "KEY1"⟩] "kid1").1 = Except.ok "KEY1" :=
  ⟨(jwks_single_fetch_spec [⟨"kid1", "KEY1"⟩] "kid9").1,
   (jwks_single_fetch_spec [⟨"kid1", "KEY1"⟩] "kid9").2.1 (by decide),
   (jwks_single_fetch_spec [⟨"kid1", "KEY1"⟩] "kid1").2.2 ⟨"kid1", "KEY1"⟩ (by decide)⟩

/-- The URL-safe base64 alphabet used by `base64.urlsafe_b64encode`. -/
def b64urlAlphabet : List Char :=
  ['A','B','C','D','E','F','G','H','I','J','K','L','M',
   'N','O','P','Q','R','S','T','U','V','W','X','Y','Z',
   'a','b','c','d','e','f','g','h','i','j','k','l','m',
   'n','o','p','q','r','s','t','u','v','w','x','y','z',
   '0','1','2','3','4','5','6','7','8','9','-','_']

/-- Six-bit groups of a byte sequence, three bytes to four sextets, with
the standard base64 handling of a one- or two-byte remainder. -/
def sextets : List Nat → List Nat
  | b1 :: b2 :: b3 :: rest =>
    (b1 % 256) / 4 :: ((b1 % 4) * 16 + (b2 % 256) / 16)
      :: ((b2 % 16) * 4 + (b3 % 256) / 64) :: (b3 % 64) :: sextets rest
  | [b1, b2] => [(b1 % 256) / 4, (b1 % 4) * 16 + (b2 % 256) / 16, (b2 % 16) * 4]
  | [b1] => [(b1 % 256) / 4, (b1 % 4) * 16]
  | [] => []

/-- Number of base64 padding characters for an input of `n` bytes. -/
def padLen (n : Nat) : Nat :=
  match n % 3 with
  | 0 => 0
  | 1 => 2
  | _ => 1

/-- The padding-free part of the base64url encoding. -/
def b64urlBody (bytes : List Nat) : List Char :=
  (sextets bytes).map (fun n => b64urlAlphabet.getD n 'A')

/-- Model of `base64.urlsafe_b64encode`: alphabet characters followed by
`'='` padding up to a multiple of four characters. -/
def b64urlEncode (bytes : List Nat) : List Char :=
  b64urlBody bytes ++ List.replicate (padLen bytes.length) '='

/-- Python's `str.replace('=', '')`: removes every `'='` character. -/
def removeAllEq (s : List Char) : List Char :=
  s.filter (fun ch => ch != '=')

/-- Translation of `utils.get_code_challenge`: the URL-safe base64
encoding of `sha256(code_verifier)` with `.replace('=', '')` applied.  The
SHA-256 digest function is a parameter, being an external library
primitive. -/
def get_code_challenge (sha256 : String → List Nat) (code_verifier : String) : String :=
  String.mk (removeAllEq (b64urlEncode (sha256 code_verifier)))

/-- Spec-side definition, following the spec's words: the URL-safe base64
encoding of SHA-256 of the code verifier with its trailing `'='` padding
stripped. -/
def stripTrailingPad (s : List Char) : List Char :=
  (s.reverse.dropWhile (fun ch => ch == '=')).reverse

/-- Spec-side code challenge: `base64url(sha256(codeVerifier))` stripped
of padding. -/
def spec_code_challenge (sha256 : String → List Nat) (code_verifier : String) : String :=
  String.mk (stripTrailingPad (b64urlEncode (sha256 code_verifier)))

/-- Translation of `avanpost.AUTHORIZATION_URL.format(...)` as performed
by `views.login`: the literal template with the five parameters
substituted. -/
def AUTHORIZATION_URL (issuer client_id scopes redirect_url code_challenge state : String) :
    String :=
  issuer ++ "/oauth2/authorize?response_type=code&client_id=" ++ client_id
    ++ "&scope=" ++ scopes ++ "&redirect_uri=" ++ redirect_url
    ++ "&code_challenge_method=S256&code_challenge=" ++ code_challenge
    ++ "&state=" ++ state

/-- Translation of `views.login`: stores the code verifier under the
state's key and redirects to the authorization URL carrying the code
challenge computed from the verifier.  The random `state` and
`code_verifier` are parameters, being products of `os.urandom`. -/
def login (sha256 : String → List Nat)
    (issuer client_id scopes redirect_url : String)
    (c : Cache) (state code_verifier : String) : Cache × String :=
  (set_code_verifier c code_verifier state,
   AUTHORIZATION_URL issuer client_id scopes redirect_url
     (get_code_challenge sha256 code_verifier) state)

/-- Every character produced by the base64url table lookup differs from
the padding character. -/
theorem b64urlChar_ne_pad (n : Nat) : (b64urlAlphabet.getD n 'A' == '=') = false := by
  have hall : ∀ x ∈ b64urlAlphabet, (x == '=') = false := by decide
  rw [List.getD_eq_getD_get?]
  cases h : b64urlAlphabet.get? n with
  | none => rfl
  | some ch => exact hall ch (List.get?_mem h)

/-- No character of the padding-free encoding body is `'='`. -/
theorem mem_b64urlBody_ne (bytes : List Nat) :
    ∀ ch ∈ b64urlBody bytes, (ch == '=') = false := by
  intro ch hch
  simp only [b64urlBody, List.mem_map] at hch
  obtain ⟨n, -, rfl⟩ := hch
  exact b64urlChar_ne_pad n

/-- Removing every `'='` from the encoding leaves exactly the body. -/
theorem removeAllEq_encode (bytes : List Nat) :
    removeAllEq (b64urlEncode bytes) = b64urlBody bytes := by
  unfold removeAllEq b64urlEncode
  rw [List.filter_append]
  have h1 : (b64urlBody bytes).filter (fun ch => ch != '=') = b64urlBody bytes := by
    rw [List.filter_eq_self]
    intro a ha
    simpa [bne] using mem_b64urlBody_ne bytes a ha
  have h2 : (List.replicate (padLen bytes.length) '=').filter (fun ch => ch != '=') = [] := by
    rw [List.filter_eq_nil_iff]
    intro a ha
    rw [List.eq_of_mem_replicate ha]
    decide
  rw [h1, h2, List.append_nil]

/-- Dropping leading padding characters past a replicate block. -/
theorem dropWhile_replicate_pad (k : Nat) (l : List Char) :
    List.dropWhile (fun ch => ch == '=') (List.replicate k '=' ++ l)
      = List.dropWhile (fun ch => ch == '=') l := by
  induction k with
  | zero => rfl
  | succ n ih => simp [List.replicate_succ, List.dropWhile_cons, ih]

/-- A list with no `'='` characters is untouched by padding removal. -/
theorem dropWhile_pad_of_no_pad (l : List Char) (h : ∀ ch ∈ l, (ch == '=') = false) :
    List.dropWhile (fun ch => ch == '=') l = l := by
  cases l with
  | nil => rfl
  | cons a t =>
    rw [List.dropWhile_cons, h a (List.mem_cons_self a t)]
    simp

/-- Stripping the trailing padding from the encoding also leaves exactly
the body. -/
theorem stripTrailingPad_encode (bytes : List Nat) :
    stripTrailingPad (b64urlEncode bytes) = b64urlBody bytes := by
  unfold stripTrailingPad b64urlEncode
  rw [List.reverse_append, List.reverse_replicate, dropWhile_replicate_pad,
    dropWhile_pad_of_no_pad]
  · exact List.reverse_reverse _
  · intro ch hch
    exact mem_b64urlBody_ne bytes ch (List.mem_reverse.mp hch)

/-- The code's challenge (remove every `'='`) coincides with the spec's
challenge (strip the trailing padding). -/
theorem get_code_challenge_eq_spec (sha256 : String → List Nat) (cv : String) :
    get_code_challenge sha256 cv = spec_code_challenge sha256 cv := by
  unfold get_code_challenge spec_code_challenge
  rw [removeAllEq_encode, stripTrailingPad_encode]

/-- Theorem for claim C8: for every `(state, codeVerifier)` pair produced
by the login flow, the `code_challenge` parameter embedded in the returned
authorization URL equals the URL-safe base64 encoding of
SHA-256(codeVerifier) with its `'='` padding stripped. -/
theorem code_challenge_in_url_spec (sha256 : String → List Nat)
    (issuer client_id scopes redirect_url : String)
    (c : Cache) (state code_verifier : String) :
    (login sha256 issuer client_id scopes redirect_url c state code_verifier).2
      = AUTHORIZATION_URL issuer client_id scopes redirect_url
          (spec_code_challenge sha256 code_verifier) state
    ∧ get_code_challenge sha256 code_verifier
      = spec_code_challenge sha256 code_verifier := by
  refine ⟨?_, get_code_challenge_eq_spec sha256 code_verifier⟩
  unfold login
  rw [get_code_challenge_eq_spec]

end Sso
